import Mathlib

/-!
Shallow embedding of `src/utils/webrtc/SentVideoQualityThrottler.js` from the
spreed repository: an adaptive sent-video quality controller.  The JS object is
modelled as an explicit state record `Throttler`; each prototype method becomes
a Lean function on that record.  External collaborators are modelled
observationally: calls to `VideoConstrainer.applyConstraints` are appended to a
log `applied`, `_trigger` notifications to external listeners are appended to a
log `emitted`, and entries into `_adjustVideoQualityIfNeeded` are counted by the
ghost field `adjustRuns`.  `window.setTimeout` / `window.clearTimeout` are
modelled by a list of pending `(id, expiry)` timers, a fresh-id counter and a
clock `now`; a timer may fire only at or after its expiry.
-/

namespace SentVideoQualityThrottler

/-- Modelled from the spec: the `QUALITY` constants are imported from
`./VideoConstrainer`, which is not among the sources; the spec fixes the strict
order `THUMBNAIL < VERY_LOW < LOW < MEDIUM < HIGH` and the code iterates
`for (let i = QUALITY.THUMBNAIL; i <= QUALITY.HIGH; i++)`, so the levels are
consecutive integers, embedded here as `0..4`. -/
def QUALITY.THUMBNAIL : Nat := 0

def QUALITY.VERY_LOW : Nat := 1

def QUALITY.LOW : Nat := 2

def QUALITY.MEDIUM : Nat := 3

def QUALITY.HIGH : Nat := 4

/-- A threshold table: a JS object possibly mapping each quality level `0..4`
to a number.  A missing entry (JS `!(i in threshold)`) is `none`. -/
@[ext]
structure Threshold where
  thumbnail : Option Int
  veryLow : Option Int
  low : Option Int
  medium : Option Int
  high : Option Int
deriving DecidableEq, Repr

/-- JS `threshold[i]`: `none` when the property is absent (or `i` out of range). -/
def Threshold.get (t : Threshold) (i : Nat) : Option Int :=
  if i = 0 then t.thumbnail
  else if i = 1 then t.veryLow
  else if i = 2 then t.low
  else if i = 3 then t.medium
  else if i = 4 then t.high
  else none

/-- Default `_availableVideosThreshold` built in the constructor:
HIGH:2, MEDIUM:4, LOW:7, VERY_LOW:10, THUMBNAIL:15. -/
def defaultVideosThreshold : Threshold :=
  { thumbnail := some 15, veryLow := some 10, low := some 7,
    medium := some 4, high := some 2 }

/-- Default `_availableAudiosThreshold` built in the constructor:
HIGH:10, MEDIUM:20, LOW:30, VERY_LOW:40, THUMBNAIL:50. -/
def defaultAudiosThreshold : Threshold :=
  { thumbnail := some 50, veryLow := some 40, low := some 30,
    medium := some 20, high := some 10 }

/-- `_validateThreshold`: the loop `for (let i = QUALITY.THUMBNAIL;
i <= QUALITY.HIGH; i++)` throws on the first `i` with no entry in the table
(the monotonicity check only emits `console.warn`, with no state effect). -/
def validateThreshold (t : Threshold) : Except String Unit :=
  match [0, 1, 2, 3, 4].find? (fun i => (t.get i).isNone) with
  | some i => Except.error ("No threshold for quality " ++ toString i)
  | none => Except.ok ()

/-- The observable fields of the external `LocalMediaModel` read by the core. -/
@[ext]
structure LocalMedia where
  videoAvailable : Bool
  videoEnabled : Bool
  audioEnabled : Bool
  speaking : Bool
deriving DecidableEq, Repr

/-- A `CallParticipantModel`: an identity plus the two observable booleans. -/
@[ext]
structure Participant where
  pid : Nat
  videoAvailable : Bool
  audioAvailable : Bool
deriving DecidableEq, Repr

/-- Which bound handlers the throttler currently has subscribed where.
`on` pushes a handler (count + 1) and `off` removes one occurrence if present
(count - 1 in `Nat`); `partVideoAvailable` lists, with multiplicity, the ids of
the participant models whose `change:videoAvailable` the throttler observes. -/
@[ext]
structure Subs where
  sigMessage : Nat
  mediaVideoAvailable : Nat
  mediaVideoEnabled : Nat
  mediaAudioEnabled : Nat
  mediaSpeaking : Nat
  collAdd : Nat
  collRemove : Nat
  partVideoAvailable : List Nat
deriving DecidableEq, Repr

/-- A notification fired by `_trigger` to the throttler's own listeners. -/
@[ext]
structure Emitted where
  event : String
  threshold : Threshold
deriving DecidableEq, Repr

/-- The whole observable state of a `SentVideoQualityThrottler` together with
its environment (local media fields, participant collection, timer service). -/
@[ext]
structure Throttler where
  media : LocalMedia
  participants : List Participant
  /-- `_gracePeriodAfterSpeakingTimeout` (`none` = JS `null`). -/
  handle : Option Nat
  /-- `_speakingOrInGracePeriodAfterSpeaking`. -/
  speakingOrInGrace : Bool
  videosThreshold : Threshold
  audiosThreshold : Threshold
  /-- Pending `(id, expiry)` timeouts of the timer service. -/
  pendingTimers : List (Nat × Nat)
  nextTimerId : Nat
  now : Nat
  /-- Log of `VideoConstrainer.applyConstraints` calls, oldest first. -/
  applied : List Nat
  /-- Ghost count of entries into `_adjustVideoQualityIfNeeded`. -/
  adjustRuns : Nat
  /-- Log of `_trigger` notifications, oldest first. -/
  emitted : List Emitted
  subs : Subs
deriving DecidableEq, Repr

/-- `window.clearTimeout(this._gracePeriodAfterSpeakingTimeout)` followed by
`this._gracePeriodAfterSpeakingTimeout = null`; clearing `null` is a no-op. -/
def clearGraceTimeout (s : Throttler) : Throttler :=
  match s.handle with
  | some id =>
      { s with pendingTimers := s.pendingTimers.filter (fun te => te.1 ≠ id),
               handle := none }
  | none => { s with handle := none }

/-- Count of participants with `videoAvailable` (the forEach loop counter). -/
def availableVideosCount (parts : List Participant) : Nat :=
  (parts.filter (fun p => p.videoAvailable)).length

/-- Count of participants with `audioAvailable` (the forEach loop counter). -/
def availableAudiosCount (parts : List Participant) : Nat :=
  (parts.filter (fun p => p.audioAvailable)).length

/-- JS `count >= threshold[i]`: comparison with a missing property
(`undefined`) is `false`. -/
def thresholdMet (t : Threshold) (count : Nat) (i : Nat) : Bool :=
  match t.get i with
  | some v => (count : Int) ≥ v
  | none => false

/-- `_getQualityForState`: `QUALITY.HIGH` while speaking or in grace;
otherwise the first level of `THUMBNAIL..MEDIUM` whose video or audio
threshold is met by the corresponding count, and `QUALITY.HIGH` if none is. -/
def getQualityForState (s : Throttler) : Nat :=
  if s.speakingOrInGrace then QUALITY.HIGH
  else
    let vc := availableVideosCount s.participants
    let ac := availableAudiosCount s.participants
    match [0, 1, 2, 3].find?
        (fun i => thresholdMet s.videosThreshold vc i
          || thresholdMet s.audiosThreshold ac i) with
    | some i => i
    | none => QUALITY.HIGH

/-- `_adjustVideoQualityIfNeeded`: returns unless local video is available and
enabled; otherwise applies the quality for the current state.  The ghost
counter `adjustRuns` records the entry itself. -/
def adjustVideoQualityIfNeeded (s : Throttler) : Throttler :=
  let s := { s with adjustRuns := s.adjustRuns + 1 }
  if !s.media.videoAvailable || !s.media.videoEnabled then s
  else { s with applied := s.applied ++ [getQualityForState s] }

/-- `_handleLocalAudioEnabledChange`: a no-op while audio is enabled; when
audio is disabled it cancels the grace timeout, forces the grace flag off and
re-evaluates. -/
def handleLocalAudioEnabledChange (s : Throttler) : Throttler :=
  if s.media.audioEnabled then s
  else
    let s := clearGraceTimeout s
    let s := { s with speakingOrInGrace := false }
    adjustVideoQualityIfNeeded s

/-- `_handleLocalSpeakingChange`: when speaking, cancel the grace timeout, set
the grace flag and re-evaluate; when not speaking, schedule a 5000 ms one-shot
timeout whose callback clears the grace flag and re-evaluates (the scheduling
branch does not clear a previously stored timeout). -/
def handleLocalSpeakingChange (s : Throttler) : Throttler :=
  if s.media.speaking then
    let s := clearGraceTimeout s
    let s := { s with speakingOrInGrace := true }
    adjustVideoQualityIfNeeded s
  else
    { s with pendingTimers := s.pendingTimers ++ [(s.nextTimerId, s.now + 5000)],
             handle := some s.nextTimerId,
             nextTimerId := s.nextTimerId + 1 }

/-- The callback of the grace-period timeout (it does not null the stored
handle): clear the grace flag and re-evaluate. -/
def graceTimeoutCallback (s : Throttler) : Throttler :=
  let s := { s with speakingOrInGrace := false }
  adjustVideoQualityIfNeeded s

/-- `setAvailableVideosThreshold`: validate (throwing on a missing entry),
replace the table, notify listeners with the new table, re-evaluate. -/
def setAvailableVideosThreshold (s : Throttler) (t : Threshold) :
    Except String Throttler := do
  let _ ← validateThreshold t
  let s := { s with videosThreshold := t }
  let s := { s with
    emitted := s.emitted ++ [⟨"change:availableVideosThreshold", t⟩] }
  pure (adjustVideoQualityIfNeeded s)

/-- `setAvailableAudiosThreshold`: validate (throwing on a missing entry),
replace the table, notify listeners with the new table, re-evaluate. -/
def setAvailableAudiosThreshold (s : Throttler) (t : Threshold) :
    Except String Throttler := do
  let _ ← validateThreshold t
  let s := { s with audiosThreshold := t }
  let s := { s with
    emitted := s.emitted ++ [⟨"change:availableAudiosThreshold", t⟩] }
  pure (adjustVideoQualityIfNeeded s)

/-- The shape of a signaling message as read by `_handleSignalingMessage`. -/
@[ext]
structure SignalingPayload where
  action : String
  threshold : Threshold
deriving DecidableEq, Repr

/-- A signaling message `{ type, payload }`. -/
@[ext]
structure SignalingMessage where
  type : String
  payload : SignalingPayload
deriving DecidableEq, Repr

/-- `_handleSignalingMessage`: only `type === 'control'` with one of the two
recognized actions does anything; the forced setter may throw. -/
def handleSignalingMessage (s : Throttler) (m : SignalingMessage) :
    Except String Throttler :=
  if m.type ≠ "control" then Except.ok s
  else if m.payload.action = "forceAvailableVideosThreshold" then
    setAvailableVideosThreshold s m.payload.threshold
  else if m.payload.action = "forceAvailableAudiosThreshold" then
    setAvailableAudiosThreshold s m.payload.threshold
  else Except.ok s

/-- `off` of the per-participant `change:videoAvailable` handlers over the
current collection (`forEach`, each `off` removing one occurrence). -/
def offParts (subsList : List Nat) (parts : List Participant) : List Nat :=
  parts.foldl (fun acc p => acc.erase p.pid) subsList

/-- `_startListeningToChanges`: subscribe the five collection/media handlers
and every current participant's `change:videoAvailable`, then run the speaking
handler, the audio handler and a re-evaluation. -/
def startListeningToChanges (s : Throttler) : Throttler :=
  let s := { s with subs :=
    { s.subs with
      mediaVideoEnabled := s.subs.mediaVideoEnabled + 1,
      mediaAudioEnabled := s.subs.mediaAudioEnabled + 1,
      mediaSpeaking := s.subs.mediaSpeaking + 1,
      collAdd := s.subs.collAdd + 1,
      collRemove := s.subs.collRemove + 1,
      partVideoAvailable :=
        s.subs.partVideoAvailable ++ s.participants.map (fun p => p.pid) } }
  let s := handleLocalSpeakingChange s
  let s := handleLocalAudioEnabledChange s
  adjustVideoQualityIfNeeded s

/-- `_stopListeningToChanges`: unsubscribe the five collection/media handlers
and every current participant's `change:videoAvailable`. -/
def stopListeningToChanges (s : Throttler) : Throttler :=
  { s with subs :=
    { s.subs with
      mediaVideoEnabled := s.subs.mediaVideoEnabled - 1,
      mediaAudioEnabled := s.subs.mediaAudioEnabled - 1,
      mediaSpeaking := s.subs.mediaSpeaking - 1,
      collAdd := s.subs.collAdd - 1,
      collRemove := s.subs.collRemove - 1,
      partVideoAvailable := offParts s.subs.partVideoAvailable s.participants } }

/-- `_handleLocalVideoAvailableChange`: start or stop listening according to
the new `videoAvailable` value. -/
def handleLocalVideoAvailableChange (s : Throttler) : Throttler :=
  if s.media.videoAvailable then startListeningToChanges s
  else stopListeningToChanges s

/-- `_handleAddParticipant`: subscribe to the added model's
`change:videoAvailable` and re-evaluate. -/
def handleAddParticipant (s : Throttler) (p : Participant) : Throttler :=
  let s := { s with subs :=
    { s.subs with partVideoAvailable := s.subs.partVideoAvailable ++ [p.pid] } }
  adjustVideoQualityIfNeeded s

/-- `_handleRemoveParticipant`: unsubscribe from the removed model's
`change:videoAvailable` and re-evaluate. -/
def handleRemoveParticipant (s : Throttler) (p : Participant) : Throttler :=
  let s := { s with subs :=
    { s.subs with
      partVideoAvailable := s.subs.partVideoAvailable.erase p.pid } }
  adjustVideoQualityIfNeeded s

/-- `destroy`: unsubscribe the outer `change:videoAvailable` watcher, then run
`_stopListeningToChanges`.  The `message` subscription on the signaling object
is not touched. -/
def destroy (s : Throttler) : Throttler :=
  let s := { s with subs :=
    { s.subs with mediaVideoAvailable := s.subs.mediaVideoAvailable - 1 } }
  stopListeningToChanges s

/-- The constructor: defaults in place, subscriptions to `message` and
`change:videoAvailable`, then `_startListeningToChanges` when local video is
available. -/
def mkThrottler (media : LocalMedia) (parts : List Participant) : Throttler :=
  let s : Throttler :=
    { media := media
      participants := parts
      handle := none
      speakingOrInGrace := false
      videosThreshold := defaultVideosThreshold
      audiosThreshold := defaultAudiosThreshold
      pendingTimers := []
      nextTimerId := 0
      now := 0
      applied := []
      adjustRuns := 0
      emitted := []
      subs :=
        { sigMessage := 1
          mediaVideoAvailable := 1
          mediaVideoEnabled := 0
          mediaAudioEnabled := 0
          mediaSpeaking := 0
          collAdd := 0
          collRemove := 0
          partVideoAvailable := [] } }
  if media.videoAvailable then startListeningToChanges s else s

/-- External events delivered to the single-threaded core.  A `change:x`
event of the backbone models fires only when the value actually changes, and a
handler runs only while it is subscribed.  `fireGraceTimer` delivers a pending
timeout; a timeout may be delivered only at or after its expiry (the timer
service is best-effort: it may fire late, never early).  The collection never
subscribes to a participant's `audioAvailable`, so changing it never invokes a
handler. -/
inductive Ev where
  | setSpeaking (b : Bool)
  | setAudioEnabled (b : Bool)
  | setVideoEnabled (b : Bool)
  | setVideoAvailable (b : Bool)
  | setPartVideoAvailable (pid : Nat) (b : Bool)
  | setPartAudioAvailable (pid : Nat) (b : Bool)
  | addParticipant (p : Participant)
  | removeParticipant (pid : Nat)
  | elapse (d : Nat)
  | fireGraceTimer (id : Nat)
  | signal (m : SignalingMessage)
deriving DecidableEq, Repr

/-- Write the new value of a participant's field. -/
def setPartField (parts : List Participant) (pid : Nat) (video : Bool)
    (b : Bool) : List Participant :=
  parts.map (fun p =>
    if p.pid = pid then
      if video then { p with videoAvailable := b }
      else { p with audioAvailable := b }
    else p)

/-- One step of the event-driven semantics.  An exception escaping an event
handler (an invalid forced threshold) propagates to the event loop; since the
validation throws before any mutation, the state is left unchanged. -/
def step (s : Throttler) (e : Ev) : Throttler :=
  match e with
  | Ev.setSpeaking b =>
      if s.media.speaking = b then s
      else
        let s := { s with media := { s.media with speaking := b } }
        if 0 < s.subs.mediaSpeaking then handleLocalSpeakingChange s else s
  | Ev.setAudioEnabled b =>
      if s.media.audioEnabled = b then s
      else
        let s := { s with media := { s.media with audioEnabled := b } }
        if 0 < s.subs.mediaAudioEnabled then handleLocalAudioEnabledChange s
        else s
  | Ev.setVideoEnabled b =>
      if s.media.videoEnabled = b then s
      else
        let s := { s with media := { s.media with videoEnabled := b } }
        if 0 < s.subs.mediaVideoEnabled then adjustVideoQualityIfNeeded s else s
  | Ev.setVideoAvailable b =>
      if s.media.videoAvailable = b then s
      else
        let s := { s with media := { s.media with videoAvailable := b } }
        if 0 < s.subs.mediaVideoAvailable then handleLocalVideoAvailableChange s
        else s
  | Ev.setPartVideoAvailable pid b =>
      let s2 := { s with participants := setPartField s.participants pid true b }
      if s2.participants = s.participants then s
      else if pid ∈ s.subs.partVideoAvailable then adjustVideoQualityIfNeeded s2
      else s2
  | Ev.setPartAudioAvailable pid b =>
      { s with participants := setPartField s.participants pid false b }
  | Ev.addParticipant p =>
      let s := { s with participants := s.participants ++ [p] }
      if 0 < s.subs.collAdd then handleAddParticipant s p else s
  | Ev.removeParticipant pid =>
      match s.participants.find? (fun p => p.pid = pid) with
      | none => s
      | some p =>
          let s := { s with
            participants := s.participants.filter (fun q => q.pid ≠ pid) }
          if 0 < s.subs.collRemove then handleRemoveParticipant s p else s
  | Ev.elapse d => { s with now := s.now + d }
  | Ev.fireGraceTimer id =>
      match s.pendingTimers.find? (fun te => te.1 = id) with
      | none => s
      | some te =>
          if te.2 ≤ s.now then
            let s := { s with
              pendingTimers := s.pendingTimers.filter (fun u => u.1 ≠ id) }
            graceTimeoutCallback s
          else s
  | Ev.signal m =>
      if 0 < s.subs.sigMessage then
        match handleSignalingMessage s m with
        | Except.ok s2 => s2
        | Except.error _ => s
      else s

/-- Deliver a list of events in order. -/
def run (s : Throttler) (evs : List Ev) : Throttler :=
  evs.foldl step s

/-- A caller of the public setter observing the object after the call, a
thrown validation error included: the exception is raised before any mutation,
so the object is unchanged on failure. -/
def trySetAvailableVideosThreshold (s : Throttler) (t : Threshold) : Throttler :=
  match setAvailableVideosThreshold s t with
  | Except.ok s2 => s2
  | Except.error _ => s

/-- Audio-table analogue of `trySetAvailableVideosThreshold`. -/
def trySetAvailableAudiosThreshold (s : Throttler) (t : Threshold) : Throttler :=
  match setAvailableAudiosThreshold s t with
  | Except.ok s2 => s2
  | Except.error _ => s

/-- The scan predicate of `_getQualityForState`: level `i`'s video or audio
threshold is met by the corresponding available count. -/
def levelMet (s : Throttler) (i : Nat) : Bool :=
  thresholdMet s.videosThreshold (availableVideosCount s.participants) i
    || thresholdMet s.audiosThreshold (availableAudiosCount s.participants) i

/-- Subscription bookkeeping of every reachable state: the signaling and the
outer `videoAvailable` watcher are subscribed once, and the inner handlers are
either all subscribed (Observing, with exactly the current participants
watched) or all unsubscribed (Dormant). -/
def coherentSubs (s : Throttler) : Prop :=
  s.subs.mediaVideoAvailable = 1 ∧
  ((s.subs.mediaVideoEnabled = 1 ∧ s.subs.mediaAudioEnabled = 1 ∧
      s.subs.mediaSpeaking = 1 ∧ s.subs.collAdd = 1 ∧ s.subs.collRemove = 1 ∧
      s.subs.partVideoAvailable = s.participants.map (fun p => p.pid)) ∨
    (s.subs.mediaVideoEnabled = 0 ∧ s.subs.mediaAudioEnabled = 0 ∧
      s.subs.mediaSpeaking = 0 ∧ s.subs.collAdd = 0 ∧ s.subs.collRemove = 0 ∧
      s.subs.partVideoAvailable = []))

/-- Events that do not pre-empt a running grace period: everything except
`speaking` becoming true, audio being disabled and timer deliveries. -/
def allowedDuringGrace : Ev → Bool
  | Ev.setSpeaking true => false
  | Ev.setAudioEnabled false => false
  | Ev.fireGraceTimer _ => false
  | _ => true

/-- Invariant maintained while the grace period for timer `(tid, exp)` is
running and no pre-empting event is delivered. -/
def graceInv (tid exp : Nat) (s : Throttler) : Prop :=
  s.media.speaking = false ∧
  s.media.audioEnabled = true ∧
  s.speakingOrInGrace = true ∧
  (tid, exp) ∈ s.pendingTimers ∧
  tid < s.nextTimerId ∧
  (∀ te ∈ s.pendingTimers, te.1 = tid → te.2 = exp) ∧
  (∀ te ∈ s.pendingTimers, te.1 < s.nextTimerId)

/-- The state right after `speaking` becomes true. -/
def afterSpeakStart (s0 : Throttler) : Throttler :=
  step s0 (Ev.setSpeaking true)

/-- The state right after `speaking` becomes true and then false again. -/
def afterSpeakStop (s0 : Throttler) : Throttler :=
  step (afterSpeakStart s0) (Ev.setSpeaking false)

/-- The id of the grace timer scheduled when speaking stops. -/
def graceTid (s0 : Throttler) : Nat :=
  (afterSpeakStart s0).nextTimerId

/-- The expiry instant of the grace timer scheduled when speaking stops. -/
def graceExpiry (s0 : Throttler) : Nat :=
  (afterSpeakStart s0).now + 5000

/-- Local media with video available and enabled, audio enabled, not
speaking. -/
def baseMedia : LocalMedia :=
  { videoAvailable := true, videoEnabled := true,
    audioEnabled := true, speaking := false }

/-- An Observing state with five remote participants sending video, used as
the concrete input of several witnesses. -/
def baseState : Throttler :=
  { media := baseMedia
    participants := [⟨0, true, false⟩, ⟨1, true, false⟩, ⟨2, true, false⟩,
      ⟨3, true, false⟩, ⟨4, true, false⟩]
    handle := none
    speakingOrInGrace := false
    videosThreshold := defaultVideosThreshold
    audiosThreshold := defaultAudiosThreshold
    pendingTimers := []
    nextTimerId := 0
    now := 0
    applied := []
    adjustRuns := 0
    emitted := []
    subs :=
      { sigMessage := 1, mediaVideoAvailable := 1, mediaVideoEnabled := 1,
        mediaAudioEnabled := 1, mediaSpeaking := 1, collAdd := 1,
        collRemove := 1, partVideoAvailable := [0, 1, 2, 3, 4] } }

/-- The spec scenario's video thresholds `{THUMBNAIL:10, VERY_LOW:7, LOW:4,
MEDIUM:2}` (the maximum level has no threshold used by the scan). -/
def lowScenarioThreshold : Threshold :=
  { thumbnail := some 10, veryLow := some 7, low := some 4,
    medium := some 2, high := some 2 }

/-- The spec scenario state: those thresholds, 5 remote videos available, no
audio threshold met, not speaking. -/
def lowScenarioState : Throttler :=
  { baseState with videosThreshold := lowScenarioThreshold }

/-- A state in which the local participant is speaking or in grace. -/
def speakingGraceState : Throttler :=
  { baseState with speakingOrInGrace := true }

/-- A state with local video unavailable. -/
def videoUnavailableState : Throttler :=
  { baseState with media := { baseMedia with videoAvailable := false } }

/-- A state with audio disabled, in grace, with a tracked pending grace
timer. -/
def audioDisabledState : Throttler :=
  { baseState with
    media := { baseMedia with audioEnabled := false },
    speakingOrInGrace := true,
    handle := some 3,
    pendingTimers := [(3, 700)],
    nextTimerId := 4,
    now := 100 }

/-- A threshold table supplying every level except the maximum-fidelity one. -/
def missingMaxThreshold : Threshold :=
  { thumbnail := some 15, veryLow := some 10, low := some 7,
    medium := some 4, high := none }

/-- A threshold table supplying every level. -/
def fullThreshold : Threshold :=
  { thumbnail := some 8, veryLow := some 6, low := some 4,
    medium := some 2, high := some 1 }

/-- A moderator control message forcing a video threshold table that omits
only the maximum level. -/
def forceVideosMissingMaxMsg : SignalingMessage :=
  ⟨"control", ⟨"forceAvailableVideosThreshold", missingMaxThreshold⟩⟩

/-- A moderator control message forcing a complete video threshold table. -/
def forceVideosFullMsg : SignalingMessage :=
  ⟨"control", ⟨"forceAvailableVideosThreshold", fullThreshold⟩⟩

/-- A signaling message with an unrecognized payload action. -/
def unknownActionMsg : SignalingMessage :=
  ⟨"control", ⟨"futureAction", fullThreshold⟩⟩

/-- A freshly constructed throttler whose local video is unavailable. -/
def dormantStart : Throttler :=
  mkThrottler
    { videoAvailable := false, videoEnabled := true,
      audioEnabled := true, speaking := false } []

/-- Local video toggling on, off and on again while not speaking: each entry
into the Observing state runs `_handleLocalSpeakingChange`, which schedules a
grace timer without cancelling the previous one. -/
def retoggleEvs : List Ev :=
  [Ev.setVideoAvailable true, Ev.setVideoAvailable false,
    Ev.setVideoAvailable true]

/-- A freshly constructed Observing throttler with one remote participant. -/
def destroyDemoState : Throttler :=
  mkThrottler baseMedia [⟨7, true, true⟩]

/-! Field-preservation lemmas for the individual operations. -/

@[simp] theorem adjust_media (s : Throttler) :
    (adjustVideoQualityIfNeeded s).media = s.media := by
  simp only [adjustVideoQualityIfNeeded]; split <;> rfl

@[simp] theorem adjust_participants (s : Throttler) :
    (adjustVideoQualityIfNeeded s).participants = s.participants := by
  simp only [adjustVideoQualityIfNeeded]; split <;> rfl

@[simp] theorem adjust_handle (s : Throttler) :
    (adjustVideoQualityIfNeeded s).handle = s.handle := by
  simp only [adjustVideoQualityIfNeeded]; split <;> rfl

@[simp] theorem adjust_grace (s : Throttler) :
    (adjustVideoQualityIfNeeded s).speakingOrInGrace = s.speakingOrInGrace := by
  simp only [adjustVideoQualityIfNeeded]; split <;> rfl

@[simp] theorem adjust_videosThreshold (s : Throttler) :
    (adjustVideoQualityIfNeeded s).videosThreshold = s.videosThreshold := by
  simp only [adjustVideoQualityIfNeeded]; split <;> rfl

@[simp] theorem adjust_audiosThreshold (s : Throttler) :
    (adjustVideoQualityIfNeeded s).audiosThreshold = s.audiosThreshold := by
  simp only [adjustVideoQualityIfNeeded]; split <;> rfl

@[simp] theorem adjust_pendingTimers (s : Throttler) :
    (adjustVideoQualityIfNeeded s).pendingTimers = s.pendingTimers := by
  simp only [adjustVideoQualityIfNeeded]; split <;> rfl

@[simp] theorem adjust_nextTimerId (s : Throttler) :
    (adjustVideoQualityIfNeeded s).nextTimerId = s.nextTimerId := by
  simp only [adjustVideoQualityIfNeeded]; split <;> rfl

@[simp] theorem adjust_now (s : Throttler) :
    (adjustVideoQualityIfNeeded s).now = s.now := by
  simp only [adjustVideoQualityIfNeeded]; split <;> rfl

@[simp] theorem adjust_emitted (s : Throttler) :
    (adjustVideoQualityIfNeeded s).emitted = s.emitted := by
  simp only [adjustVideoQualityIfNeeded]; split <;> rfl

@[simp] theorem adjust_subs (s : Throttler) :
    (adjustVideoQualityIfNeeded s).subs = s.subs := by
  simp only [adjustVideoQualityIfNeeded]; split <;> rfl

@[simp] theorem adjust_adjustRuns (s : Throttler) :
    (adjustVideoQualityIfNeeded s).adjustRuns = s.adjustRuns + 1 := by
  simp only [adjustVideoQualityIfNeeded]; split <;> rfl

@[simp] theorem clearGrace_media (s : Throttler) :
    (clearGraceTimeout s).media = s.media := by
  simp only [clearGraceTimeout]; split <;> rfl

@[simp] theorem clearGrace_participants (s : Throttler) :
    (clearGraceTimeout s).participants = s.participants := by
  simp only [clearGraceTimeout]; split <;> rfl

@[simp] theorem clearGrace_grace (s : Throttler) :
    (clearGraceTimeout s).speakingOrInGrace = s.speakingOrInGrace := by
  simp only [clearGraceTimeout]; split <;> rfl

@[simp] theorem clearGrace_videosThreshold (s : Throttler) :
    (clearGraceTimeout s).videosThreshold = s.videosThreshold := by
  simp only [clearGraceTimeout]; split <;> rfl

@[simp] theorem clearGrace_audiosThreshold (s : Throttler) :
    (clearGraceTimeout s).audiosThreshold = s.audiosThreshold := by
  simp only [clearGraceTimeout]; split <;> rfl

@[simp] theorem clearGrace_nextTimerId (s : Throttler) :
    (clearGraceTimeout s).nextTimerId = s.nextTimerId := by
  simp only [clearGraceTimeout]; split <;> rfl

@[simp] theorem clearGrace_now (s : Throttler) :
    (clearGraceTimeout s).now = s.now := by
  simp only [clearGraceTimeout]; split <;> rfl

@[simp] theorem clearGrace_applied (s : Throttler) :
    (clearGraceTimeout s).applied = s.applied := by
  simp only [clearGraceTimeout]; split <;> rfl

@[simp] theorem clearGrace_adjustRuns (s : Throttler) :
    (clearGraceTimeout s).adjustRuns = s.adjustRuns := by
  simp only [clearGraceTimeout]; split <;> rfl

@[simp] theorem clearGrace_emitted (s : Throttler) :
    (clearGraceTimeout s).emitted = s.emitted := by
  simp only [clearGraceTimeout]; split <;> rfl

@[simp] theorem clearGrace_subs (s : Throttler) :
    (clearGraceTimeout s).subs = s.subs := by
  simp only [clearGraceTimeout]; split <;> rfl

@[simp] theorem clearGrace_handle (s : Throttler) :
    (clearGraceTimeout s).handle = none := by
  simp only [clearGraceTimeout]; split <;> rfl

@[simp] theorem speakingChange_media (s : Throttler) :
    (handleLocalSpeakingChange s).media = s.media := by
  simp only [handleLocalSpeakingChange]; split <;> simp

@[simp] theorem speakingChange_participants (s : Throttler) :
    (handleLocalSpeakingChange s).participants = s.participants := by
  simp only [handleLocalSpeakingChange]; split <;> simp

@[simp] theorem speakingChange_videosThreshold (s : Throttler) :
    (handleLocalSpeakingChange s).videosThreshold = s.videosThreshold := by
  simp only [handleLocalSpeakingChange]; split <;> simp

@[simp] theorem speakingChange_audiosThreshold (s : Throttler) :
    (handleLocalSpeakingChange s).audiosThreshold = s.audiosThreshold := by
  simp only [handleLocalSpeakingChange]; split <;> simp

@[simp] theorem speakingChange_now (s : Throttler) :
    (handleLocalSpeakingChange s).now = s.now := by
  simp only [handleLocalSpeakingChange]; split <;> simp

@[simp] theorem speakingChange_emitted (s : Throttler) :
    (handleLocalSpeakingChange s).emitted = s.emitted := by
  simp only [handleLocalSpeakingChange]; split <;> simp

@[simp] theorem speakingChange_subs (s : Throttler) :
    (handleLocalSpeakingChange s).subs = s.subs := by
  simp only [handleLocalSpeakingChange]; split <;> simp

@[simp] theorem audioChange_media (s : Throttler) :
    (handleLocalAudioEnabledChange s).media = s.media := by
  simp only [handleLocalAudioEnabledChange]; split <;> simp

@[simp] theorem audioChange_participants (s : Throttler) :
    (handleLocalAudioEnabledChange s).participants = s.participants := by
  simp only [handleLocalAudioEnabledChange]; split <;> simp

@[simp] theorem audioChange_videosThreshold (s : Throttler) :
    (handleLocalAudioEnabledChange s).videosThreshold = s.videosThreshold := by
  simp only [handleLocalAudioEnabledChange]; split <;> simp

@[simp] theorem audioChange_audiosThreshold (s : Throttler) :
    (handleLocalAudioEnabledChange s).audiosThreshold = s.audiosThreshold := by
  simp only [handleLocalAudioEnabledChange]; split <;> simp

@[simp] theorem audioChange_nextTimerId (s : Throttler) :
    (handleLocalAudioEnabledChange s).nextTimerId = s.nextTimerId := by
  simp only [handleLocalAudioEnabledChange]; split <;> simp

@[simp] theorem audioChange_now (s : Throttler) :
    (handleLocalAudioEnabledChange s).now = s.now := by
  simp only [handleLocalAudioEnabledChange]; split <;> simp

@[simp] theorem audioChange_emitted (s : Throttler) :
    (handleLocalAudioEnabledChange s).emitted = s.emitted := by
  simp only [handleLocalAudioEnabledChange]; split <;> simp

@[simp] theorem audioChange_subs (s : Throttler) :
    (handleLocalAudioEnabledChange s).subs = s.subs := by
  simp only [handleLocalAudioEnabledChange]; split <;> simp

@[simp] theorem graceCallback_media (s : Throttler) :
    (graceTimeoutCallback s).media = s.media := by
  simp [graceTimeoutCallback]

@[simp] theorem graceCallback_pendingTimers (s : Throttler) :
    (graceTimeoutCallback s).pendingTimers = s.pendingTimers := by
  simp [graceTimeoutCallback]

@[simp] theorem graceCallback_grace (s : Throttler) :
    (graceTimeoutCallback s).speakingOrInGrace = false := by
  simp [graceTimeoutCallback]

/-! Helper lemmas about validation, the setters and the scan. -/

theorem validateThreshold_ok_iff (t : Threshold) :
    validateThreshold t = Except.ok () ↔
      ∀ i, i ≤ 4 → (t.get i).isSome = true := by
  obtain ⟨a, b, c, d, e⟩ := t
  constructor
  · intro h i hi
    interval_cases i <;>
      (cases a <;> cases b <;> cases c <;> cases d <;> cases e <;>
        simp_all [validateThreshold, Threshold.get, List.find?])
  · intro h
    have h0 := h 0 (by norm_num)
    have h1 := h 1 (by norm_num)
    have h2 := h 2 (by norm_num)
    have h3 := h 3 (by norm_num)
    have h4 := h 4 (by norm_num)
    simp only [Threshold.get] at h0 h1 h2 h3 h4
    norm_num at h0 h1 h2 h3 h4
    cases a <;> cases b <;> cases c <;> cases d <;> cases e <;>
      simp_all [validateThreshold, Threshold.get, List.find?]

theorem setVideosThreshold_ok (s : Throttler) (t : Threshold) (s2 : Throttler)
    (h : setAvailableVideosThreshold s t = Except.ok s2) :
    s2.media = s.media ∧ s2.participants = s.participants ∧
    s2.handle = s.handle ∧ s2.speakingOrInGrace = s.speakingOrInGrace ∧
    s2.videosThreshold = t ∧ s2.audiosThreshold = s.audiosThreshold ∧
    s2.pendingTimers = s.pendingTimers ∧ s2.nextTimerId = s.nextTimerId ∧
    s2.emitted = s.emitted ++ [⟨"change:availableVideosThreshold", t⟩] ∧
    s2.subs = s.subs ∧ s2.adjustRuns = s.adjustRuns + 1 := by
  unfold setAvailableVideosThreshold at h
  cases hv : validateThreshold t with
  | error msg => rw [hv] at h; simp [Bind.bind, Except.bind] at h
  | ok u =>
      cases u
      rw [hv] at h
      simp only [Bind.bind, Except.bind, pure, Except.pure, Except.ok.injEq] at h
      subst h
      simp

theorem setAudiosThreshold_ok (s : Throttler) (t : Threshold) (s2 : Throttler)
    (h : setAvailableAudiosThreshold s t = Except.ok s2) :
    s2.media = s.media ∧ s2.participants = s.participants ∧
    s2.handle = s.handle ∧ s2.speakingOrInGrace = s.speakingOrInGrace ∧
    s2.videosThreshold = s.videosThreshold ∧ s2.audiosThreshold = t ∧
    s2.pendingTimers = s.pendingTimers ∧ s2.nextTimerId = s.nextTimerId ∧
    s2.emitted = s.emitted ++ [⟨"change:availableAudiosThreshold", t⟩] ∧
    s2.subs = s.subs ∧ s2.adjustRuns = s.adjustRuns + 1 := by
  unfold setAvailableAudiosThreshold at h
  cases hv : validateThreshold t with
  | error msg => rw [hv] at h; simp [Bind.bind, Except.bind] at h
  | ok u =>
      cases u
      rw [hv] at h
      simp only [Bind.bind, Except.bind, pure, Except.pure, Except.ok.injEq] at h
      subst h
      simp

theorem setVideosThreshold_isOk_iff (s : Throttler) (t : Threshold) :
    (setAvailableVideosThreshold s t).isOk = true ↔
      validateThreshold t = Except.ok () := by
  unfold setAvailableVideosThreshold
  cases hv : validateThreshold t with
  | error msg => simp [Bind.bind, Except.bind, hv, Except.isOk, Except.toBool]
  | ok u => cases u; simp [Bind.bind, Except.bind, hv, Except.isOk, Except.toBool, pure, Except.pure]

theorem setAudiosThreshold_isOk_iff (s : Throttler) (t : Threshold) :
    (setAvailableAudiosThreshold s t).isOk = true ↔
      validateThreshold t = Except.ok () := by
  unfold setAvailableAudiosThreshold
  cases hv : validateThreshold t with
  | error msg => simp [Bind.bind, Except.bind, hv, Except.isOk, Except.toBool]
  | ok u => cases u; simp [Bind.bind, Except.bind, hv, Except.isOk, Except.toBool, pure, Except.pure]

theorem find4_spec (p : Nat → Bool) :
    ([0, 1, 2, 3].find? p = none ∧ ∀ j, j < 4 → p j = false) ∨
      (∃ i, [0, 1, 2, 3].find? p = some i ∧ i < 4 ∧ p i = true ∧
        ∀ j, j < i → p j = false) := by
  by_cases h0 : p 0 = true
  · exact Or.inr ⟨0, by simp [List.find?, h0], by norm_num, h0, by omega⟩
  · by_cases h1 : p 1 = true
    · refine Or.inr ⟨1, by simp [List.find?, h0, h1], by norm_num, h1, ?_⟩
      intro j hj; interval_cases j; simpa using h0
    · by_cases h2 : p 2 = true
      · refine Or.inr ⟨2, by simp [List.find?, h0, h1, h2], by norm_num, h2, ?_⟩
        intro j hj; interval_cases j
        · simpa using h0
        · simpa using h1
      · by_cases h3 : p 3 = true
        · refine Or.inr ⟨3, by simp [List.find?, h0, h1, h2, h3], by norm_num,
            h3, ?_⟩
          intro j hj; interval_cases j
          · simpa using h0
          · simpa using h1
          · simpa using h2
        · refine Or.inl ⟨by simp [List.find?, h0, h1, h2, h3], ?_⟩
          intro j hj; interval_cases j
          · simpa using h0
          · simpa using h1
          · simpa using h2
          · simpa using h3

theorem getQualityForState_eq_scan (s : Throttler)
    (h : s.speakingOrInGrace = false) :
    getQualityForState s =
      match [0, 1, 2, 3].find? (fun i => levelMet s i) with
      | some i => i
      | none => QUALITY.HIGH := by
  simp only [getQualityForState, levelMet, h]
  rfl

@[simp] theorem getQuality_adjustRuns_irrel (s : Throttler) (n : Nat) :
    getQualityForState { s with adjustRuns := n } = getQualityForState s := rfl

/-- C1: with `speakingOrInGrace` false, the decision function scans the levels
from lowest fidelity (THUMBNAIL = 0) toward highest, excluding the maximum,
and returns the first level whose video or audio threshold is met by the
corresponding available count; if no level's threshold is met it returns the
maximum-fidelity level.  (The spec scenario — video thresholds
`{THUMBNAIL:10, VERY_LOW:7, LOW:4, MEDIUM:2}`, 5 remote videos, no audio
threshold met, not speaking, decision = LOW — is the witness.) -/
theorem qualityDecision_scanLowToHigh (s : Throttler)
    (h : s.speakingOrInGrace = false) :
    (getQualityForState s = QUALITY.HIGH ∧
      ∀ j, j < QUALITY.HIGH → levelMet s j = false) ∨
    (getQualityForState s < QUALITY.HIGH ∧
      levelMet s (getQualityForState s) = true ∧
      ∀ j, j < getQualityForState s → levelMet s j = false) := by
  have hq := getQualityForState_eq_scan s h
  rcases find4_spec (fun i => levelMet s i) with ⟨hf, hall⟩ | ⟨i, hf, hi, hpi, hlow⟩
  · left
    rw [hq, hf]
    exact ⟨rfl, hall⟩
  · right
    rw [hq, hf]
    exact ⟨hi, hpi, hlow⟩

/-- Witness for C1: the spec scenario state has the grace flag down and its
decision is LOW. -/
theorem qualityDecision_scanLowToHigh_witness :
    lowScenarioState.speakingOrInGrace = false ∧
    getQualityForState lowScenarioState = QUALITY.LOW ∧
    ((getQualityForState lowScenarioState = QUALITY.HIGH ∧
        ∀ j, j < QUALITY.HIGH → levelMet lowScenarioState j = false) ∨
      (getQualityForState lowScenarioState < QUALITY.HIGH ∧
        levelMet lowScenarioState (getQualityForState lowScenarioState) = true ∧
        ∀ j, j < getQualityForState lowScenarioState →
          levelMet lowScenarioState j = false)) :=
  ⟨rfl, by decide, qualityDecision_scanLowToHigh lowScenarioState rfl⟩

/-- C2: whenever `speakingOrInGrace` is true the decision function returns the
maximum-fidelity level, for every state (hence for all counts and threshold
tables). -/
theorem qualityDecision_speakingWins (s : Throttler)
    (h : s.speakingOrInGrace = true) :
    getQualityForState s = QUALITY.HIGH := by
  simp [getQualityForState, h]

/-- Witness for C2 at a concrete speaking state. -/
theorem qualityDecision_speakingWins_witness :
    getQualityForState speakingGraceState = QUALITY.HIGH :=
  qualityDecision_speakingWins speakingGraceState rfl

/-- C5: a re-evaluation invokes the constraint applier iff local video is both
available and enabled, and then always with the decision function's level,
with no short-circuit on an unchanged level (the application log grows on
every such call). -/
theorem adjustQuality_iffVideoActive (s : Throttler) :
    (s.media.videoAvailable = true → s.media.videoEnabled = true →
      (adjustVideoQualityIfNeeded s).applied =
        s.applied ++ [getQualityForState s]) ∧
    (¬(s.media.videoAvailable = true ∧ s.media.videoEnabled = true) →
      (adjustVideoQualityIfNeeded s).applied = s.applied) := by
  constructor
  · intro h1 h2
    simp [adjustVideoQualityIfNeeded, h1, h2]
  · intro h
    cases hv : s.media.videoAvailable <;> cases he : s.media.videoEnabled
    · simp [adjustVideoQualityIfNeeded, hv, he]
    · simp [adjustVideoQualityIfNeeded, hv, he]
    · simp [adjustVideoQualityIfNeeded, hv, he]
    · exact absurd ⟨hv, he⟩ h

/-- Witness for C5: with local video unavailable the applier is not invoked;
with video available and enabled it is invoked with the decided level. -/
theorem adjustQuality_iffVideoActive_witness :
    (adjustVideoQualityIfNeeded videoUnavailableState).applied =
      videoUnavailableState.applied ∧
    (adjustVideoQualityIfNeeded baseState).applied =
      baseState.applied ++ [getQualityForState baseState] :=
  ⟨(adjustQuality_iffVideoActive videoUnavailableState).2 (by decide),
    (adjustQuality_iffVideoActive baseState).1 rfl rfl⟩

/-- C7: when audio becomes disabled, from any grace state and independently of
the speaking flag, the grace flag is forced false, the tracked pending grace
timer is cancelled (every surviving pending timer was already pending and is
not the tracked one) and a re-evaluation is triggered. -/
theorem audioDisabled_forcesInactive (s : Throttler)
    (h : s.media.audioEnabled = false) :
    (handleLocalAudioEnabledChange s).speakingOrInGrace = false ∧
    (handleLocalAudioEnabledChange s).handle = none ∧
    (∀ te ∈ (handleLocalAudioEnabledChange s).pendingTimers,
      te ∈ s.pendingTimers ∧ s.handle ≠ some te.1) ∧
    (handleLocalAudioEnabledChange s).adjustRuns = s.adjustRuns + 1 := by
  unfold handleLocalAudioEnabledChange
  rw [h]
  simp only [Bool.false_eq_true, if_false]
  refine ⟨by simp, by simp, ?_, by simp⟩
  intro te hte
  simp only [adjust_pendingTimers] at hte
  cases hh : s.handle with
  | none =>
      unfold clearGraceTimeout at hte
      rw [hh] at hte
      exact ⟨hte, by simp [hh]⟩
  | some id =>
      unfold clearGraceTimeout at hte
      rw [hh] at hte
      simp only [List.mem_filter, decide_eq_true_eq] at hte
      exact ⟨hte.1, by simp [hh]; exact fun hc => hte.2 hc.symm⟩

/-- Witness for C7 at a concrete in-grace, audio-disabled state. -/
theorem audioDisabled_forcesInactive_witness :
    (handleLocalAudioEnabledChange audioDisabledState).speakingOrInGrace = false ∧
    (handleLocalAudioEnabledChange audioDisabledState).handle = none ∧
    (∀ te ∈ (handleLocalAudioEnabledChange audioDisabledState).pendingTimers,
      te ∈ audioDisabledState.pendingTimers ∧
        audioDisabledState.handle ≠ some te.1) ∧
    (handleLocalAudioEnabledChange audioDisabledState).adjustRuns =
      audioDisabledState.adjustRuns + 1 :=
  audioDisabled_forcesInactive audioDisabledState rfl

/-- C10: the audio-enabled change handler is a complete no-op while audio is
enabled: the state — grace flag, timers, logs — is unchanged. -/
theorem audioEnabledTrue_noop (s : Throttler)
    (h : s.media.audioEnabled = true) :
    handleLocalAudioEnabledChange s = s := by
  unfold handleLocalAudioEnabledChange
  rw [h]
  simp

/-- Witness for C10 at a concrete audio-enabled state. -/
theorem audioEnabledTrue_noop_witness :
    handleLocalAudioEnabledChange baseState = baseState :=
  audioEnabledTrue_noop baseState rfl

/-- Counterexample to C4: a table supplying an entry for every level except
the maximum-fidelity one (HIGH) is claimed to be accepted, but
`_validateThreshold` iterates up to and including `QUALITY.HIGH` and the
setter throws `No threshold for quality 4`. -/
theorem setThreshold_missingMax_rejected_cex :
    setAvailableVideosThreshold baseState missingMaxThreshold =
      Except.error "No threshold for quality 4" := by
  rfl

/-- C4 as amended: the setters fail iff the supplied table omits an entry for
some quality level, the maximum-fidelity one included; a table supplying an
entry for every level (also HIGH) is accepted, and on failure the caller
observes the previous state unchanged. -/
theorem thresholdSetters_requireAllLevels (s : Throttler) (t : Threshold) :
    ((setAvailableVideosThreshold s t).isOk = true ↔
      ∀ i, i ≤ 4 → (t.get i).isSome = true) ∧
    ((setAvailableAudiosThreshold s t).isOk = true ↔
      ∀ i, i ≤ 4 → (t.get i).isSome = true) ∧
    ((setAvailableVideosThreshold s t).isOk = false →
      trySetAvailableVideosThreshold s t = s) ∧
    ((setAvailableAudiosThreshold s t).isOk = false →
      trySetAvailableAudiosThreshold s t = s) := by
  refine ⟨?_, ?_, ?_, ?_⟩
  · rw [setVideosThreshold_isOk_iff]
    exact validateThreshold_ok_iff t
  · rw [setAudiosThreshold_isOk_iff]
    exact validateThreshold_ok_iff t
  · intro h
    unfold trySetAvailableVideosThreshold
    cases hr : setAvailableVideosThreshold s t with
    | ok s2 => rw [hr] at h; simp [Except.isOk, Except.toBool] at h
    | error msg => rfl
  · intro h
    unfold trySetAvailableAudiosThreshold
    cases hr : setAvailableAudiosThreshold s t with
    | ok s2 => rw [hr] at h; simp [Except.isOk, Except.toBool] at h
    | error msg => rfl

/-- Witness for C4 as amended: the table missing only HIGH leaves the state
unchanged through the catching caller, and a complete table is accepted. -/
theorem thresholdSetters_requireAllLevels_witness :
    trySetAvailableVideosThreshold baseState missingMaxThreshold = baseState ∧
    (setAvailableVideosThreshold baseState fullThreshold).isOk = true :=
  ⟨(thresholdSetters_requireAllLevels baseState missingMaxThreshold).2.2.1
      (by decide),
    (thresholdSetters_requireAllLevels baseState fullThreshold).1.mpr
      (by decide)⟩

/-- Counterexample to C3: a control message forcing a video threshold table
that omits only the maximum level (a well-formed table by the spec's data
model) does not replace the table: the forced setter throws, and the state
after the signaling event is unchanged. -/
theorem controlOverride_invalidTable_cex :
    handleSignalingMessage baseState forceVideosMissingMaxMsg =
      Except.error "No threshold for quality 4" ∧
    step baseState (Ev.signal forceVideosMissingMaxMsg) = baseState := by
  exact ⟨rfl, rfl⟩

/-- C3 as amended: a `control` message with a recognized force action whose
table passes validation (an entry for every level, HIGH included) replaces the
corresponding table wholesale, emits the threshold-changed notification with
the new table and triggers an immediate re-evaluation; a message whose type or
action is not recognized leaves the state unchanged. -/
theorem signalingControl_override (s : Throttler) (m : SignalingMessage) :
    (m.type = "control" → m.payload.action = "forceAvailableVideosThreshold" →
      validateThreshold m.payload.threshold = Except.ok () →
      ∃ s2, handleSignalingMessage s m = Except.ok s2 ∧
        s2.videosThreshold = m.payload.threshold ∧
        s2.audiosThreshold = s.audiosThreshold ∧
        s2.emitted = s.emitted ++
          [⟨"change:availableVideosThreshold", m.payload.threshold⟩] ∧
        s2.adjustRuns = s.adjustRuns + 1) ∧
    (m.type = "control" → m.payload.action = "forceAvailableAudiosThreshold" →
      validateThreshold m.payload.threshold = Except.ok () →
      ∃ s2, handleSignalingMessage s m = Except.ok s2 ∧
        s2.audiosThreshold = m.payload.threshold ∧
        s2.videosThreshold = s.videosThreshold ∧
        s2.emitted = s.emitted ++
          [⟨"change:availableAudiosThreshold", m.payload.threshold⟩] ∧
        s2.adjustRuns = s.adjustRuns + 1) ∧
    (m.type ≠ "control" → handleSignalingMessage s m = Except.ok s) ∧
    (m.payload.action ≠ "forceAvailableVideosThreshold" →
      m.payload.action ≠ "forceAvailableAudiosThreshold" →
      handleSignalingMessage s m = Except.ok s) := by
  refine ⟨?_, ?_, ?_, ?_⟩
  · intro ht ha hv
    have hok : (setAvailableVideosThreshold s m.payload.threshold).isOk = true :=
      (setVideosThreshold_isOk_iff s m.payload.threshold).mpr hv
    cases hr : setAvailableVideosThreshold s m.payload.threshold with
    | error msg => rw [hr] at hok; simp [Except.isOk, Except.toBool] at hok
    | ok s2 =>
        obtain ⟨_, _, _, _, hvt, hat, _, _, hem, _, har⟩ :=
          setVideosThreshold_ok s m.payload.threshold s2 hr
        refine ⟨s2, ?_, hvt, hat, hem, har⟩
        simp [handleSignalingMessage, ht, ha, hr]
  · intro ht ha hv
    have hok : (setAvailableAudiosThreshold s m.payload.threshold).isOk = true :=
      (setAudiosThreshold_isOk_iff s m.payload.threshold).mpr hv
    cases hr : setAvailableAudiosThreshold s m.payload.threshold with
    | error msg => rw [hr] at hok; simp [Except.isOk, Except.toBool] at hok
    | ok s2 =>
        obtain ⟨_, _, _, _, hvt, hat, _, _, hem, _, har⟩ :=
          setAudiosThreshold_ok s m.payload.threshold s2 hr
        refine ⟨s2, ?_, hat, hvt, hem, har⟩
        simp [handleSignalingMessage, ht, ha, hr]
  · intro ht
    simp [handleSignalingMessage, ht]
  · intro h1 h2
    by_cases ht : m.type = "control"
    · simp [handleSignalingMessage, ht, h1, h2]
    · simp [handleSignalingMessage, ht]

/-- Witness for C3 as amended: a valid forced video table is installed with a
notification, and an unrecognized action is silently ignored. -/
theorem signalingControl_override_witness :
    (∃ s2, handleSignalingMessage baseState forceVideosFullMsg =
        Except.ok s2 ∧
      s2.videosThreshold = forceVideosFullMsg.payload.threshold ∧
      s2.audiosThreshold = baseState.audiosThreshold ∧
      s2.emitted = baseState.emitted ++
        [⟨"change:availableVideosThreshold",
          forceVideosFullMsg.payload.threshold⟩] ∧
      s2.adjustRuns = baseState.adjustRuns + 1) ∧
    handleSignalingMessage baseState unknownActionMsg =
      Except.ok baseState :=
  ⟨(signalingControl_override baseState forceVideosFullMsg).1 rfl rfl rfl,
    (signalingControl_override baseState unknownActionMsg).2.2.2
      (by decide) (by decide)⟩

theorem clearGrace_tracked_empty (s : Throttler)
    (htrack : ∀ te ∈ s.pendingTimers, s.handle = some te.1) :
    (clearGraceTimeout s).pendingTimers = [] := by
  cases hh : s.handle with
  | none =>
      have hnil : s.pendingTimers = [] := by
        rw [List.eq_nil_iff_forall_not_mem]
        intro x hx
        have hc := htrack x hx
        rw [hh] at hc
        exact Option.noConfusion hc
      simp [clearGraceTimeout, hh, hnil]
  | some id =>
      simp only [clearGraceTimeout, hh]
      rw [List.filter_eq_nil_iff]
      intro te hte
      have hc := htrack te hte
      rw [hh] at hc
      simp [Option.some.injEq] at hc
      simp [hc]

/-- Counterexample to C8: from a freshly constructed throttler with local
video unavailable, toggling local video available, unavailable and available
again (while not speaking) leaves two grace timers pending at once — each
entry into the Observing state runs `_handleLocalSpeakingChange`, which
schedules a new timeout without clearing the previously stored one. -/
theorem duplicateGraceTimers_reachable_cex :
    (run dormantStart retoggleEvs).pendingTimers = [(0, 5000), (1, 5000)] := by
  decide

/-- C8 as amended: the transitions that set the grace flag (speaking becomes
true) or force it off (audio disabled) do cancel the tracked pending timer
first, leaving no pending timer; but the scheduling step taken when speaking
is false appends a new timer without cancelling the previous one, so duplicate
pending timers are reachable (see the counterexample). -/
theorem graceTimer_cancelBehaviour (s : Throttler)
    (htrack : ∀ te ∈ s.pendingTimers, s.handle = some te.1) :
    (s.media.speaking = true →
      (handleLocalSpeakingChange s).pendingTimers = []) ∧
    (s.media.audioEnabled = false →
      (handleLocalAudioEnabledChange s).pendingTimers = []) ∧
    (s.media.speaking = false →
      (handleLocalSpeakingChange s).pendingTimers =
        s.pendingTimers ++ [(s.nextTimerId, s.now + 5000)]) := by
  refine ⟨?_, ?_, ?_⟩
  · intro h
    simp [handleLocalSpeakingChange, h, clearGrace_tracked_empty s htrack]
  · intro h
    simp [handleLocalAudioEnabledChange, h, clearGrace_tracked_empty s htrack]
  · intro h
    simp [handleLocalSpeakingChange, h]

/-- Witness for C8 as amended, at a state with one tracked pending timer:
audio-disable cancels it, while the speaking-false scheduling appends a second
timer without cancelling. -/
theorem graceTimer_cancelBehaviour_witness :
    (handleLocalAudioEnabledChange audioDisabledState).pendingTimers = [] ∧
    (handleLocalSpeakingChange audioDisabledState).pendingTimers =
      [(3, 700), (4, 5100)] := by
  have htr : ∀ te ∈ audioDisabledState.pendingTimers,
      audioDisabledState.handle = some te.1 := by
    intro te hte
    rw [show audioDisabledState.pendingTimers = [(3, 700)] from rfl] at hte
    rw [List.mem_singleton] at hte
    subst hte
    rfl
  exact ⟨(graceTimer_cancelBehaviour audioDisabledState htr).2.1 rfl,
    (graceTimer_cancelBehaviour audioDisabledState htr).2.2 rfl⟩

theorem offParts_nil (parts : List Participant) : offParts [] parts = [] := by
  induction parts with
  | nil => rfl
  | cons p rest ih => simpa [offParts, List.erase] using ih

theorem offParts_map_self (parts : List Participant) :
    offParts (parts.map (fun p => p.pid)) parts = [] := by
  induction parts with
  | nil => rfl
  | cons p rest ih =>
      simp only [offParts, List.map_cons, List.foldl_cons,
        List.erase_cons_head]
      exact ih

@[simp] theorem stop_media (s : Throttler) :
    (stopListeningToChanges s).media = s.media := rfl

@[simp] theorem stop_participants (s : Throttler) :
    (stopListeningToChanges s).participants = s.participants := rfl

@[simp] theorem destroy_media (s : Throttler) :
    (destroy s).media = s.media := rfl

@[simp] theorem destroy_participants (s : Throttler) :
    (destroy s).participants = s.participants := rfl

@[simp] theorem destroy_subs_sig (s : Throttler) :
    (destroy s).subs.sigMessage = s.subs.sigMessage := rfl

@[simp] theorem destroy_subs_mva (s : Throttler) :
    (destroy s).subs.mediaVideoAvailable =
      s.subs.mediaVideoAvailable - 1 := rfl

@[simp] theorem destroy_subs_mve (s : Throttler) :
    (destroy s).subs.mediaVideoEnabled = s.subs.mediaVideoEnabled - 1 := rfl

@[simp] theorem destroy_subs_mae (s : Throttler) :
    (destroy s).subs.mediaAudioEnabled = s.subs.mediaAudioEnabled - 1 := rfl

@[simp] theorem destroy_subs_msp (s : Throttler) :
    (destroy s).subs.mediaSpeaking = s.subs.mediaSpeaking - 1 := rfl

@[simp] theorem destroy_subs_add (s : Throttler) :
    (destroy s).subs.collAdd = s.subs.collAdd - 1 := rfl

@[simp] theorem destroy_subs_rem (s : Throttler) :
    (destroy s).subs.collRemove = s.subs.collRemove - 1 := rfl

@[simp] theorem destroy_subs_part (s : Throttler) :
    (destroy s).subs.partVideoAvailable =
      offParts s.subs.partVideoAvailable s.participants := rfl

/-- Counterexample to C9: after `destroy` on a freshly constructed Observing
throttler, the `message` subscription on the signaling channel is still held
(the constructor subscribes it and `destroy` never unsubscribes it). -/
theorem destroy_keepsSignalingSubscription_cex :
    (destroy destroyDemoState).subs.sigMessage = 1 := by
  decide

/-- C9 as amended: from either lifecycle state (with coherent subscription
bookkeeping), `destroy` removes every subscription on the local media state,
the participant collection and the participant models, is idempotent — but the
signaling-channel `message` subscription is left in place. -/
theorem destroy_removesSubscriptions (s : Throttler) (h : coherentSubs s) :
    (destroy s).subs.mediaVideoAvailable = 0 ∧
    (destroy s).subs.mediaVideoEnabled = 0 ∧
    (destroy s).subs.mediaAudioEnabled = 0 ∧
    (destroy s).subs.mediaSpeaking = 0 ∧
    (destroy s).subs.collAdd = 0 ∧
    (destroy s).subs.collRemove = 0 ∧
    (destroy s).subs.partVideoAvailable = [] ∧
    (destroy s).subs.sigMessage = s.subs.sigMessage ∧
    destroy (destroy s) = destroy s := by
  obtain ⟨hava, hrest⟩ := h
  have hpart : (destroy s).subs.partVideoAvailable = [] := by
    rcases hrest with ⟨-, -, -, -, -, h6⟩ | ⟨-, -, -, -, -, h6⟩
    · rw [destroy_subs_part, h6, offParts_map_self]
    · rw [destroy_subs_part, h6, offParts_nil]
  have hzero : ∀ n, n ≤ 1 → n - 1 = 0 := by omega
  rcases hrest with ⟨h1, h2, h3, h4, h5, h6⟩ | ⟨h1, h2, h3, h4, h5, h6⟩ <;>
    refine ⟨by simp [hava], by simp [h1], by simp [h2], by simp [h3],
      by simp [h4], by simp [h5], hpart, rfl, ?_⟩ <;>
  · ext1
    · rfl
    · rfl
    · rfl
    · rfl
    · rfl
    · rfl
    · rfl
    · rfl
    · rfl
    · rfl
    · rfl
    · rfl
    · ext1 <;>
        simp [hava, h1, h2, h3, h4, h5, h6, offParts_map_self, offParts_nil]

/-- Witness for C9 as amended at a concrete Observing state. -/
theorem destroy_removesSubscriptions_witness :
    (destroy baseState).subs.mediaVideoAvailable = 0 ∧
    (destroy baseState).subs.mediaVideoEnabled = 0 ∧
    (destroy baseState).subs.mediaAudioEnabled = 0 ∧
    (destroy baseState).subs.mediaSpeaking = 0 ∧
    (destroy baseState).subs.collAdd = 0 ∧
    (destroy baseState).subs.collRemove = 0 ∧
    (destroy baseState).subs.partVideoAvailable = [] ∧
    (destroy baseState).subs.sigMessage = baseState.subs.sigMessage ∧
    destroy (destroy baseState) = destroy baseState :=
  destroy_removesSubscriptions baseState
    ⟨rfl, Or.inl ⟨rfl, rfl, rfl, rfl, rfl, rfl⟩⟩

/-! Infrastructure for the grace-window run property. -/

@[simp] theorem stop_grace (s : Throttler) :
    (stopListeningToChanges s).speakingOrInGrace = s.speakingOrInGrace := rfl

@[simp] theorem stop_pendingTimers (s : Throttler) :
    (stopListeningToChanges s).pendingTimers = s.pendingTimers := rfl

@[simp] theorem stop_nextTimerId (s : Throttler) :
    (stopListeningToChanges s).nextTimerId = s.nextTimerId := rfl

@[simp] theorem stop_now (s : Throttler) :
    (stopListeningToChanges s).now = s.now := rfl

@[simp] theorem addPart_media (s : Throttler) (p : Participant) :
    (handleAddParticipant s p).media = s.media := by
  simp [handleAddParticipant]

@[simp] theorem addPart_grace (s : Throttler) (p : Participant) :
    (handleAddParticipant s p).speakingOrInGrace = s.speakingOrInGrace := by
  simp [handleAddParticipant]

@[simp] theorem addPart_pendingTimers (s : Throttler) (p : Participant) :
    (handleAddParticipant s p).pendingTimers = s.pendingTimers := by
  simp [handleAddParticipant]

@[simp] theorem addPart_nextTimerId (s : Throttler) (p : Participant) :
    (handleAddParticipant s p).nextTimerId = s.nextTimerId := by
  simp [handleAddParticipant]

@[simp] theorem addPart_now (s : Throttler) (p : Participant) :
    (handleAddParticipant s p).now = s.now := by
  simp [handleAddParticipant]

@[simp] theorem removePart_media (s : Throttler) (p : Participant) :
    (handleRemoveParticipant s p).media = s.media := by
  simp [handleRemoveParticipant]

@[simp] theorem removePart_grace (s : Throttler) (p : Participant) :
    (handleRemoveParticipant s p).speakingOrInGrace = s.speakingOrInGrace := by
  simp [handleRemoveParticipant]

@[simp] theorem removePart_pendingTimers (s : Throttler) (p : Participant) :
    (handleRemoveParticipant s p).pendingTimers = s.pendingTimers := by
  simp [handleRemoveParticipant]

@[simp] theorem removePart_nextTimerId (s : Throttler) (p : Participant) :
    (handleRemoveParticipant s p).nextTimerId = s.nextTimerId := by
  simp [handleRemoveParticipant]

@[simp] theorem removePart_now (s : Throttler) (p : Participant) :
    (handleRemoveParticipant s p).now = s.now := by
  simp [handleRemoveParticipant]

theorem signaling_ok_preserves (s : Throttler) (m : SignalingMessage)
    (s2 : Throttler) (h : handleSignalingMessage s m = Except.ok s2) :
    s2.media = s.media ∧ s2.speakingOrInGrace = s.speakingOrInGrace ∧
    s2.pendingTimers = s.pendingTimers ∧ s2.nextTimerId = s.nextTimerId ∧
    s2.now = s.now := by
  unfold handleSignalingMessage at h
  by_cases ht : m.type = "control"
  · simp only [ht, ne_eq, not_true_eq_false, if_false] at h
    by_cases ha : m.payload.action = "forceAvailableVideosThreshold"
    · rw [if_pos ha] at h
      obtain ⟨hm, _, _, hsg, _, _, hpt, hnt, _, _, _⟩ :=
        setVideosThreshold_ok s m.payload.threshold s2 h
      refine ⟨hm, hsg, hpt, hnt, ?_⟩
      have : s2.now = s.now := by
        cases hv : validateThreshold m.payload.threshold with
        | error msg =>
            unfold setAvailableVideosThreshold at h
            rw [hv] at h
            simp [Bind.bind, Except.bind] at h
        | ok u =>
            cases u
            unfold setAvailableVideosThreshold at h
            rw [hv] at h
            simp only [Bind.bind, Except.bind, pure, Except.pure,
              Except.ok.injEq] at h
            subst h
            simp
      exact this
    · by_cases hb : m.payload.action = "forceAvailableAudiosThreshold"
      · rw [if_neg ha, if_pos hb] at h
        obtain ⟨hm, _, _, hsg, _, _, hpt, hnt, _, _, _⟩ :=
          setAudiosThreshold_ok s m.payload.threshold s2 h
        refine ⟨hm, hsg, hpt, hnt, ?_⟩
        cases hv : validateThreshold m.payload.threshold with
        | error msg =>
            unfold setAvailableAudiosThreshold at h
            rw [hv] at h
            simp [Bind.bind, Except.bind] at h
        | ok u =>
            cases u
            unfold setAvailableAudiosThreshold at h
            rw [hv] at h
            simp only [Bind.bind, Except.bind, pure, Except.pure,
              Except.ok.injEq] at h
            subst h
            simp
      · rw [if_neg ha, if_neg hb] at h
        cases h
        exact ⟨rfl, rfl, rfl, rfl, rfl⟩
  · rw [if_pos ht] at h
    cases h
    exact ⟨rfl, rfl, rfl, rfl, rfl⟩

theorem graceInv_of_fields (tid exp : Nat) (s s2 : Throttler)
    (hm : s2.media.speaking = s.media.speaking)
    (ha : s2.media.audioEnabled = s.media.audioEnabled)
    (hgr : s2.speakingOrInGrace = s.speakingOrInGrace)
    (hp : s2.pendingTimers = s.pendingTimers)
    (hn : s2.nextTimerId = s.nextTimerId)
    (hI : graceInv tid exp s) : graceInv tid exp s2 := by
  obtain ⟨h1, h2, h3, h4, h5, h6, h7⟩ := hI
  refine ⟨hm.trans h1, ha.trans h2, hgr.trans h3, ?_, ?_, ?_, ?_⟩
  · rw [hp]; exact h4
  · rw [hn]; exact h5
  · rw [hp]; exact h6
  · rw [hp, hn]; exact h7

theorem graceInv_schedule (tid exp : Nat) (s s2 : Throttler)
    (hm : s2.media.speaking = s.media.speaking)
    (ha : s2.media.audioEnabled = s.media.audioEnabled)
    (hgr : s2.speakingOrInGrace = s.speakingOrInGrace)
    (hp : s2.pendingTimers =
      s.pendingTimers ++ [(s.nextTimerId, s.now + 5000)])
    (hn : s2.nextTimerId = s.nextTimerId + 1)
    (hI : graceInv tid exp s) : graceInv tid exp s2 := by
  obtain ⟨h1, h2, h3, h4, h5, h6, h7⟩ := hI
  refine ⟨hm.trans h1, ha.trans h2, hgr.trans h3, ?_, ?_, ?_, ?_⟩
  · rw [hp]; exact List.mem_append_left _ h4
  · rw [hn]; omega
  · rw [hp]
    intro te hte
    rcases List.mem_append.mp hte with hin | hin
    · exact h6 te hin
    · rw [List.mem_singleton] at hin
      subst hin
      intro hq
      exact absurd hq (by simp; omega)
  · rw [hp, hn]
    intro te hte
    rcases List.mem_append.mp hte with hin | hin
    · exact Nat.lt_succ_of_lt (h7 te hin)
    · rw [List.mem_singleton] at hin
      subst hin
      exact Nat.lt_succ_self _

theorem start_noSpeak_fields (s : Throttler) (hsp : s.media.speaking = false)
    (hau : s.media.audioEnabled = true) :
    (startListeningToChanges s).media = s.media ∧
    (startListeningToChanges s).speakingOrInGrace = s.speakingOrInGrace ∧
    (startListeningToChanges s).pendingTimers =
      s.pendingTimers ++ [(s.nextTimerId, s.now + 5000)] ∧
    (startListeningToChanges s).nextTimerId = s.nextTimerId + 1 ∧
    (startListeningToChanges s).now = s.now := by
  unfold startListeningToChanges
  simp [handleLocalSpeakingChange, hsp, handleLocalAudioEnabledChange, hau]

theorem graceInv_step (tid exp : Nat) (s : Throttler) (e : Ev)
    (hI : graceInv tid exp s) (he : allowedDuringGrace e = true) :
    graceInv tid exp (step s e) := by
  have hsp : s.media.speaking = false := hI.1
  have hau : s.media.audioEnabled = true := hI.2.1
  cases e with
  | setSpeaking b =>
      cases b with
      | false =>
          have hr : step s (Ev.setSpeaking false) = s := by simp [step, hsp]
          rw [hr]; exact hI
      | true => simp [allowedDuringGrace] at he
  | setAudioEnabled b =>
      cases b with
      | true =>
          have hr : step s (Ev.setAudioEnabled true) = s := by simp [step, hau]
          rw [hr]; exact hI
      | false => simp [allowedDuringGrace] at he
  | setVideoEnabled b =>
      refine graceInv_of_fields tid exp s _ ?_ ?_ ?_ ?_ ?_ hI <;>
        (simp only [step]; split
         · rfl
         · split <;> simp)
  | setVideoAvailable b =>
      by_cases hc : s.media.videoAvailable = b
      · have hr : step s (Ev.setVideoAvailable b) = s := by simp [step, hc]
        rw [hr]; exact hI
      · cases b with
        | false =>
            by_cases hsub : 0 < s.subs.mediaVideoAvailable
            · have hr : step s (Ev.setVideoAvailable false) =
                  stopListeningToChanges
                    { s with media := { s.media with videoAvailable := false } } := by
                simp [step, hc, hsub, handleLocalVideoAvailableChange]
              rw [hr]
              exact graceInv_of_fields tid exp s _ rfl rfl rfl rfl rfl hI
            · have hr : step s (Ev.setVideoAvailable false) =
                  { s with media := { s.media with videoAvailable := false } } := by
                simp [step, hc, hsub]
              rw [hr]
              exact graceInv_of_fields tid exp s _ rfl rfl rfl rfl rfl hI
        | true =>
            by_cases hsub : 0 < s.subs.mediaVideoAvailable
            · have hr : step s (Ev.setVideoAvailable true) =
                  startListeningToChanges
                    { s with media := { s.media with videoAvailable := true } } := by
                simp [step, hc, hsub, handleLocalVideoAvailableChange]
              obtain ⟨f1, f2, f3, f4, f5⟩ := start_noSpeak_fields
                { s with media := { s.media with videoAvailable := true } }
                hsp hau
              rw [hr]
              refine graceInv_schedule tid exp s _ ?_ ?_ ?_ ?_ ?_ hI
              · rw [f1]
              · rw [f1]
              · rw [f2]
              · rw [f3]
              · rw [f4]
            · have hr : step s (Ev.setVideoAvailable true) =
                  { s with media := { s.media with videoAvailable := true } } := by
                simp [step, hc, hsub]
              rw [hr]
              exact graceInv_of_fields tid exp s _ rfl rfl rfl rfl rfl hI
  | setPartVideoAvailable pid b =>
      refine graceInv_of_fields tid exp s _ ?_ ?_ ?_ ?_ ?_ hI <;>
        (simp only [step]; split
         · rfl
         · split <;> simp)
  | setPartAudioAvailable pid b =>
      exact graceInv_of_fields tid exp s _ rfl rfl rfl rfl rfl hI
  | addParticipant p =>
      refine graceInv_of_fields tid exp s _ ?_ ?_ ?_ ?_ ?_ hI <;>
        (simp only [step]; split <;> simp)
  | removeParticipant pid =>
      refine graceInv_of_fields tid exp s _ ?_ ?_ ?_ ?_ ?_ hI <;>
        (simp only [step]; split
         · rfl
         · split <;> simp)
  | elapse d =>
      exact graceInv_of_fields tid exp s _ rfl rfl rfl rfl rfl hI
  | fireGraceTimer id => simp [allowedDuringGrace] at he
  | signal m =>
      simp only [step]
      split
      · split
        · next s2 heq =>
            obtain ⟨hm, hg2, hp2, hn2, _⟩ := signaling_ok_preserves s m s2 heq
            exact graceInv_of_fields tid exp s s2 (by rw [hm]) (by rw [hm])
              hg2 hp2 hn2 hI
        · exact hI
      · exact hI

theorem graceInv_run (tid exp : Nat) (s : Throttler) (evs : List Ev)
    (hI : graceInv tid exp s)
    (hallow : ∀ e ∈ evs, allowedDuringGrace e = true) :
    graceInv tid exp (run s evs) := by
  induction evs generalizing s with
  | nil => exact hI
  | cons e rest ih =>
      exact ih (step s e)
        (graceInv_step tid exp s e hI (hallow e (by simp)))
        (fun x hx => hallow x (by simp [hx]))

/-- C6: in a run where `speaking` becomes true and then false (audio enabled
throughout, starting from an Observing state whose pending timers are all
tracked by the stored handle), `speakingOrInGrace` becomes true the instant
speaking starts — cancelling any pending grace timer — and on stopping a
one-shot 5000 ms timer is scheduled; through any further events that are not a
new `speaking=true`, an audio-disable or a timer delivery, the flag stays true
and the timer stays pending; delivering the timer before its expiry is
impossible (a no-op), and delivering it at or after the expiry makes the flag
false, the timer no longer pending. -/
theorem speakingGraceWindow (s0 : Throttler) (evs : List Ev)
    (hobs : 0 < s0.subs.mediaSpeaking)
    (hsp0 : s0.media.speaking = false)
    (hau0 : s0.media.audioEnabled = true)
    (htrack : ∀ te ∈ s0.pendingTimers, s0.handle = some te.1)
    (hallow : ∀ e ∈ evs, allowedDuringGrace e = true) :
    (afterSpeakStart s0).speakingOrInGrace = true ∧
    (afterSpeakStart s0).pendingTimers = [] ∧
    (afterSpeakStop s0).speakingOrInGrace = true ∧
    (afterSpeakStop s0).pendingTimers = [(graceTid s0, graceExpiry s0)] ∧
    (run (afterSpeakStop s0) evs).speakingOrInGrace = true ∧
    (graceTid s0, graceExpiry s0) ∈
      (run (afterSpeakStop s0) evs).pendingTimers ∧
    ((run (afterSpeakStop s0) evs).now < graceExpiry s0 →
      step (run (afterSpeakStop s0) evs) (Ev.fireGraceTimer (graceTid s0)) =
        run (afterSpeakStop s0) evs) ∧
    (graceExpiry s0 ≤ (run (afterSpeakStop s0) evs).now →
      (step (run (afterSpeakStop s0) evs)
          (Ev.fireGraceTimer (graceTid s0))).speakingOrInGrace = false ∧
      ∀ te ∈ (step (run (afterSpeakStop s0) evs)
          (Ev.fireGraceTimer (graceTid s0))).pendingTimers,
        te.1 ≠ graceTid s0) := by
  have a1 : (afterSpeakStart s0).speakingOrInGrace = true := by
    simp [afterSpeakStart, step, hsp0, hobs, handleLocalSpeakingChange]
  have a2 : (afterSpeakStart s0).pendingTimers = [] := by
    simp [afterSpeakStart, step, hsp0, hobs, handleLocalSpeakingChange]
    exact clearGrace_tracked_empty _ htrack
  have a3 : (afterSpeakStart s0).media = { s0.media with speaking := true } := by
    simp [afterSpeakStart, step, hsp0, hobs, handleLocalSpeakingChange]
  have a4 : (afterSpeakStart s0).nextTimerId = s0.nextTimerId := by
    simp [afterSpeakStart, step, hsp0, hobs, handleLocalSpeakingChange]
  have a5 : (afterSpeakStart s0).now = s0.now := by
    simp [afterSpeakStart, step, hsp0, hobs, handleLocalSpeakingChange]
  have a6 : (afterSpeakStart s0).subs = s0.subs := by
    simp [afterSpeakStart, step, hsp0, hobs, handleLocalSpeakingChange]
  have hb0 : (afterSpeakStart s0).media.speaking = true := by rw [a3]
  have hba : (afterSpeakStart s0).media.audioEnabled = true := by
    rw [a3]; exact hau0
  have b1 : (afterSpeakStop s0).speakingOrInGrace = true := by
    simp [afterSpeakStop, step, hb0, a6, hobs, handleLocalSpeakingChange, a1]
  have b2 : (afterSpeakStop s0).pendingTimers =
      [(graceTid s0, graceExpiry s0)] := by
    simp [afterSpeakStop, step, hb0, a6, hobs, handleLocalSpeakingChange, a2,
      graceTid, graceExpiry]
  have binv : graceInv (graceTid s0) (graceExpiry s0) (afterSpeakStop s0) := by
    refine ⟨?_, ?_, b1, ?_, ?_, ?_, ?_⟩
    · simp [afterSpeakStop, step, hb0, a6, hobs, handleLocalSpeakingChange]
    · simp [afterSpeakStop, step, hb0, a6, hobs, handleLocalSpeakingChange,
        hba]
    · rw [b2]; exact List.mem_singleton.mpr rfl
    · simp [afterSpeakStop, step, hb0, a6, hobs, handleLocalSpeakingChange,
        graceTid]
    · rw [b2]
      intro te hte
      rw [List.mem_singleton] at hte
      subst hte
      intro
      rfl
    · rw [b2]
      intro te hte
      rw [List.mem_singleton] at hte
      subst hte
      simp [afterSpeakStop, step, hb0, a6, hobs, handleLocalSpeakingChange,
        graceTid]
  have rinv : graceInv (graceTid s0) (graceExpiry s0)
      (run (afterSpeakStop s0) evs) :=
    graceInv_run (graceTid s0) (graceExpiry s0) (afterSpeakStop s0) evs binv
      hallow
  obtain ⟨r1, r2, r3, r4, r5, r6, r7⟩ := rinv
  have hfind : (run (afterSpeakStop s0) evs).pendingTimers.find?
      (fun te => te.1 = graceTid s0) = some (graceTid s0, graceExpiry s0) := by
    cases hf : (run (afterSpeakStop s0) evs).pendingTimers.find?
        (fun te => te.1 = graceTid s0) with
    | none =>
        exfalso
        have hnone := List.find?_eq_none.mp hf _ r4
        simp at hnone
    | some x =>
        have hpx := List.find?_some hf
        have hmx := List.mem_of_find?_eq_some hf
        have hx1 : x.1 = graceTid s0 := by simpa using hpx
        have hx2 : x.2 = graceExpiry s0 := r6 x hmx hx1
        obtain ⟨xa, xb⟩ := x
        simp only at hx1 hx2
        rw [hx1, hx2]
  refine ⟨a1, a2, b1, b2, r3, r4, ?_, ?_⟩
  · intro hlt
    have hnle : ¬(graceExpiry s0 ≤ (run (afterSpeakStop s0) evs).now) := by
      omega
    simp [step, hfind, hnle]
  · intro hge
    have hred : step (run (afterSpeakStop s0) evs)
        (Ev.fireGraceTimer (graceTid s0)) =
        graceTimeoutCallback
          { run (afterSpeakStop s0) evs with
            pendingTimers :=
              (run (afterSpeakStop s0) evs).pendingTimers.filter
                (fun u => u.1 ≠ graceTid s0) } := by
      simp [step, hfind, hge]
    constructor
    · rw [hred]; simp
    · rw [hred]
      intro te hte
      simp only [graceCallback_pendingTimers] at hte
      rw [List.mem_filter] at hte
      simpa using hte.2

/-- Witness for C6: the concrete base state, with a 5000 ms lapse between
speaking stopping and the timer delivery. -/
theorem speakingGraceWindow_witness :
    (afterSpeakStart baseState).speakingOrInGrace = true ∧
    (afterSpeakStart baseState).pendingTimers = [] ∧
    (afterSpeakStop baseState).speakingOrInGrace = true ∧
    (afterSpeakStop baseState).pendingTimers =
      [(graceTid baseState, graceExpiry baseState)] ∧
    (run (afterSpeakStop baseState) [Ev.elapse 5000]).speakingOrInGrace =
      true ∧
    (graceTid baseState, graceExpiry baseState) ∈
      (run (afterSpeakStop baseState) [Ev.elapse 5000]).pendingTimers ∧
    ((run (afterSpeakStop baseState) [Ev.elapse 5000]).now <
        graceExpiry baseState →
      step (run (afterSpeakStop baseState) [Ev.elapse 5000])
          (Ev.fireGraceTimer (graceTid baseState)) =
        run (afterSpeakStop baseState) [Ev.elapse 5000]) ∧
    (graceExpiry baseState ≤
        (run (afterSpeakStop baseState) [Ev.elapse 5000]).now →
      (step (run (afterSpeakStop baseState) [Ev.elapse 5000])
          (Ev.fireGraceTimer (graceTid baseState))).speakingOrInGrace =
        false ∧
      ∀ te ∈ (step (run (afterSpeakStop baseState) [Ev.elapse 5000])
          (Ev.fireGraceTimer (graceTid baseState))).pendingTimers,
        te.1 ≠ graceTid baseState) :=
  speakingGraceWindow baseState [Ev.elapse 5000] (by decide) rfl rfl
    (by intro te hte
        rw [show baseState.pendingTimers = [] from rfl] at hte
        exact absurd hte (List.not_mem_nil te))
    (by intro e he2
        rw [List.mem_singleton] at he2
        subst he2
        rfl)

end SentVideoQualityThrottler
